import Mathlib

/-!
Verification of the contract-analyzer core against its specification.

The development shallowly embeds the Python sources:
* `src/compliance_engine/analyzer.py` — deterministic compliance scoring
  (`analyze_requirement`); the external model call and the JSON decoding of
  its reply are abstracted by a `ParsedResponse` argument, exactly the data
  the code works with after `json.loads`.
* `src/rag/retriever.py` — evidence retrieval and relevance filtering; the
  embedding provider and the vector index are abstracted by a `search`
  argument, matching the spec's treatment of them as external collaborators.
* `src/chunking/section_tagger.py` and `src/chunking/chunker.py` — the
  regex-driven labeling and chunking pipeline, with the regular expressions
  compiled by hand into executable matchers (Python `re` search semantics:
  leftmost match, greedy quantifiers with backtracking).

Python strings are modelled as `List Char`, Python ints as `Nat`/`Int`, and
similarity scores as `Rat` (exact arithmetic in place of IEEE floats).
-/

namespace ContractAnalyzer

/-! ## Data model (src/compliance_engine/analyzer.py, src/rag/retriever.py) -/

/-- One evidence citation inside a control claim: `{chunk_id, label, quote}`. -/
structure EvidenceItem where
  chunk_id : Int
  label : String
  quote : String
deriving Repr, DecidableEq

/-- One entry of the `controls` array of the model's JSON reply. -/
structure ControlClaim where
  name : String
  covered : Bool
  evidence : List EvidenceItem
deriving Repr, DecidableEq

/-- One retrieved evidence clause, as produced by `retrieve_clauses`. -/
structure RetrievedClause where
  chunk_id : Int
  label : String
  score : Rat
  text : String
deriving Repr, DecidableEq

/-- The model's JSON reply after parsing (`data` in `analyze_requirement`).
`controls = none` models a reply whose `"controls"` key is missing or is not
a list (the `isinstance` guard in the source). The upstream `confidence`
field is carried but, like in the source (`data.pop("confidence", None)`),
never used. -/
structure ParsedResponse where
  requirement : String
  status : String
  confidence : Int
  controls : Option (List ControlClaim)
  rationale : String
  gaps : List String
  recommendations : List String
deriving Repr, DecidableEq

/-- The verdict dictionary returned by `analyze_requirement`. -/
structure Verdict where
  requirement : String
  status : String
  confidence : Int
  controls : List ControlClaim
  rationale : String
  gaps : List String
  recommendations : List String
deriving Repr, DecidableEq

/-! ## Compliance scorer (src/compliance_engine/analyzer.py) -/

/-- `[{"name": c, "covered": False, "evidence": []} for c in controls]`. -/
def default_controls (controls : List String) : List ControlClaim :=
  controls.map (fun c => { name := c, covered := false, evidence := [] })

/-- Post-validation step: `if ctrl.get("covered") and not ctrl.get("evidence"):
ctrl["covered"] = False`. -/
def repair_control (c : ControlClaim) : ControlClaim :=
  if c.covered && c.evidence.isEmpty then { c with covered := false } else c

/-- The `data["controls"]` list after the `isinstance` safety replacement and
the covered-without-evidence repair loop. -/
def effective_controls (resp : ParsedResponse) (controls : List String) :
    List ControlClaim :=
  (resp.controls.getD (default_controls controls)).map repair_control

/-- `covered_count` / `covered_controls`:
`sum(1 for c in data["controls"] if c.get("covered") is True)`. -/
def covered_controls_count (ctrls : List ControlClaim) : Nat :=
  (ctrls.filter (fun c => c.covered)).length

/-- `evidence_quotes = sum(len(c.get("evidence", [])) for c in data["controls"])`. -/
def evidence_quotes (ctrls : List ControlClaim) : Nat :=
  (ctrls.map (fun c => c.evidence.length)).sum

/-- `avg_score = sum(scores) / len(scores) if scores else 0.0`. -/
def avg_score (retrieved : List RetrievedClause) : Rat :=
  let scores := retrieved.map (fun c => c.score)
  if scores.length ≠ 0 then scores.sum / (scores.length : Rat) else 0

/-- Deterministic status recompute:
`total = len(data.get("controls", [])) or len(controls)`, then the
all/none/some coverage decision. -/
def compute_status (ctrls : List ControlClaim) (controls : List String) : String :=
  let total : Nat := if ctrls.length ≠ 0 then ctrls.length else controls.length
  if 0 < total ∧ covered_controls_count ctrls = total then "Fully Compliant"
  else if covered_controls_count ctrls = 0 then "Non-Compliant"
  else "Partially Compliant"

/-- The `base` value after all adjustments in the confidence block. Note that
the source sets `total_controls = len(controls) or 1` — the length of the
INPUT control list, not of the model-returned list. `int(60 * coverage_ratio)`
is embedded as exact natural division, its value on nonnegative operands. -/
def compute_base (ctrls : List ControlClaim) (controls : List String)
    (retrieved : List RetrievedClause) : Int :=
  let total_controls : Nat := if controls.length ≠ 0 then controls.length else 1
  let base : Int := 20 + ((60 * covered_controls_count ctrls) / total_controls : Nat)
  let base := if 0 < evidence_quotes ctrls then base + 5 else min base 20
  let base :=
    if (0.40 : Rat) ≤ avg_score retrieved then base + 5
    else if avg_score retrieved < (0.25 : Rat) then base - 5
    else base
  if compute_status ctrls controls = "Fully Compliant" then base + 5
  else if compute_status ctrls controls = "Non-Compliant" then base - 5
  else base

/-- Final confidence assignment: exactly 20 when there is no quotable
evidence, otherwise the clamp `max(MIN_CONF, min(base, MAX_CONF))`. -/
def compute_confidence (ctrls : List ControlClaim) (controls : List String)
    (retrieved : List RetrievedClause) : Int :=
  if evidence_quotes ctrls = 0 then min 20 95
  else max 30 (min (compute_base ctrls controls retrieved) 95)

/-- `analyze_requirement`. The prompt construction, the chat-completion call
and `json.loads` (with its brace-extraction fallback) are external steps whose
outcome is the `resp` argument; everything downstream of the parse is embedded
verbatim. The no-evidence branch never inspects `resp`. -/
def analyze_requirement (requirement_name requirement_description : String)
    (controls : List String) (retrieved_clauses : List RetrievedClause)
    (resp : ParsedResponse) : Verdict :=
  match retrieved_clauses with
  | [] =>
    { requirement := requirement_name,
      status := "Non-Compliant",
      confidence := 20,
      controls := default_controls controls,
      rationale := "No sufficiently relevant contract language was retrieved for this requirement.",
      gaps := ["No evidence found above similarity threshold."],
      recommendations := ["Add explicit contract language covering these controls."] }
  | _ :: _ =>
    let ctrls := effective_controls resp controls
    { requirement := resp.requirement,
      status := compute_status ctrls controls,
      confidence := compute_confidence ctrls controls retrieved_clauses,
      controls := ctrls,
      rationale := resp.rationale,
      gaps := resp.gaps,
      recommendations := resp.recommendations }

/-! ### Basic facts about the scorer helpers -/

theorem repair_control_default (controls : List String) :
    (default_controls controls).map repair_control = default_controls controls := by
  induction controls with
  | nil => rfl
  | cons c cs ih =>
    simp only [default_controls, List.map_cons] at ih ⊢
    simp [repair_control, ih]

theorem covered_controls_count_default (controls : List String) :
    covered_controls_count (default_controls controls) = 0 := by
  induction controls with
  | nil => rfl
  | cons c cs ih =>
    simp only [default_controls, List.map_cons] at ih ⊢
    simpa [covered_controls_count, List.filter] using ih

theorem evidence_quotes_default (controls : List String) :
    evidence_quotes (default_controls controls) = 0 := by
  induction controls with
  | nil => rfl
  | cons c cs ih =>
    simp only [default_controls, List.map_cons] at ih ⊢
    simpa [evidence_quotes] using ih

/-- A repaired control that ends up with no evidence is never covered. -/
theorem repair_control_no_evidence (c : ControlClaim) :
    (repair_control c).evidence = [] → (repair_control c).covered = false := by
  unfold repair_control
  split
  · intro _; rfl
  · rename_i hcond
    intro hev
    simp only [hev, List.isEmpty_nil, Bool.and_true] at hcond
    simpa using hcond

/-! ### Claims about the scorer -/

/-- C3: with an empty `retrieved_clauses` list the scorer is independent of
the claim-generation response (no language-model interaction can influence
the verdict), and it deterministically returns status `"Non-Compliant"`,
confidence exactly 20, and every input control marked uncovered with empty
evidence. -/
theorem analyze_requirement_no_evidence_branch (n d : String)
    (controls : List String) (resp resp' : ParsedResponse) :
    analyze_requirement n d controls [] resp = analyze_requirement n d controls [] resp' ∧
    (analyze_requirement n d controls [] resp).status = "Non-Compliant" ∧
    (analyze_requirement n d controls [] resp).confidence = 20 ∧
    (analyze_requirement n d controls [] resp).controls =
      controls.map (fun c => { name := c, covered := false, evidence := [] }) :=
  ⟨rfl, rfl, rfl, rfl⟩

/-- C4: every verdict's confidence is either exactly 20 or lies in `[30, 95]`,
and it is exactly 20 precisely when the verdict carries zero evidence quotes
across all of its controls (which covers the empty-retrieval branch). -/
theorem analyze_requirement_confidence_clamp (n d : String)
    (controls : List String) (retrieved : List RetrievedClause)
    (resp : ParsedResponse) :
    ((30 ≤ (analyze_requirement n d controls retrieved resp).confidence ∧
        (analyze_requirement n d controls retrieved resp).confidence ≤ 95) ∨
      (analyze_requirement n d controls retrieved resp).confidence = 20) ∧
    ((analyze_requirement n d controls retrieved resp).confidence = 20 ↔
      evidence_quotes (analyze_requirement n d controls retrieved resp).controls = 0) := by
  cases retrieved with
  | nil =>
    refine ⟨Or.inr rfl, ?_⟩
    show (20 : Int) = 20 ↔ evidence_quotes (default_controls controls) = 0
    simp [evidence_quotes_default]
  | cons cl cls =>
    have hconf : (analyze_requirement n d controls (cl :: cls) resp).confidence =
        compute_confidence (effective_controls resp controls) controls (cl :: cls) := rfl
    have hctrls : (analyze_requirement n d controls (cl :: cls) resp).controls =
        effective_controls resp controls := rfl
    rw [hconf, hctrls]
    unfold compute_confidence
    by_cases hq : evidence_quotes (effective_controls resp controls) = 0
    · rw [if_pos hq]
      exact ⟨Or.inr (by norm_num), by simp [hq]⟩
    · rw [if_neg hq]
      have h30 : (30 : Int) ≤ max 30 (min (compute_base (effective_controls resp controls) controls (cl :: cls)) 95) :=
        le_max_left _ _

      have h95 : max 30 (min (compute_base (effective_controls resp controls) controls (cl :: cls)) 95) ≤ 95 :=
        max_le (by norm_num) (min_le_right _ _)
      refine ⟨Or.inl ⟨h30, h95⟩, ?_⟩
      constructor
      · intro h20; omega
      · intro h0; exact absurd h0 hq

/-- C10: when the parsed response's `controls` field is missing or not a list,
the scorer substitutes the input control names, each uncovered with empty
evidence, and the verdict is `"Non-Compliant"` with confidence 20. -/
theorem analyze_requirement_missing_controls (n d : String)
    (controls : List String) (cl : RetrievedClause) (cls : List RetrievedClause)
    (req st rat : String) (conf : Int) (gaps recs : List String) :
    (analyze_requirement n d controls (cl :: cls)
        { requirement := req, status := st, confidence := conf, controls := none,
          rationale := rat, gaps := gaps, recommendations := recs }).controls =
      default_controls controls ∧
    (analyze_requirement n d controls (cl :: cls)
        { requirement := req, status := st, confidence := conf, controls := none,
          rationale := rat, gaps := gaps, recommendations := recs }).status =
      "Non-Compliant" ∧
    (analyze_requirement n d controls (cl :: cls)
        { requirement := req, status := st, confidence := conf, controls := none,
          rationale := rat, gaps := gaps, recommendations := recs }).confidence = 20 := by
  have hec : effective_controls
      { requirement := req, status := st, confidence := conf, controls := none,
        rationale := rat, gaps := gaps, recommendations := recs } controls =
      default_controls controls := repair_control_default controls
  refine ⟨hec, ?_, ?_⟩
  · show compute_status (effective_controls _ controls) controls = _
    rw [hec]
    unfold compute_status
    rw [covered_controls_count_default]
    have : ¬ (0 < (if (default_controls controls).length ≠ 0 then
        (default_controls controls).length else controls.length) ∧
        0 = (if (default_controls controls).length ≠ 0 then
        (default_controls controls).length else controls.length)) := by
      rintro ⟨hpos, heq⟩; omega
    rw [if_neg this, if_pos rfl]
  · show compute_confidence (effective_controls _ controls) controls (cl :: cls) = 20
    rw [hec]
    unfold compute_confidence
    rw [if_pos (evidence_quotes_default controls)]
    norm_num

/-- Overwriting the `controls` field of a parsed response, as the safety
steps of `analyze_requirement` do (`data["controls"] = ...`). -/
def with_controls (resp : ParsedResponse) (l : List ControlClaim) : ParsedResponse :=
  { resp with controls := some l }

/-- C5: a control reported covered with an empty evidence list is scored
exactly as if it had been reported uncovered — flipping such a control's
`covered` flag does not change the verdict at all — and no control of the
returned verdict is covered while having empty evidence. -/
theorem analyze_requirement_covered_without_evidence (n d : String)
    (controls : List String) (cl : RetrievedClause) (cls : List RetrievedClause)
    (resp : ParsedResponse) (nm : String) (pre post : List ControlClaim) :
    analyze_requirement n d controls (cl :: cls)
        (with_controls resp
          (pre ++ { name := nm, covered := true, evidence := [] } :: post)) =
      analyze_requirement n d controls (cl :: cls)
        (with_controls resp
          (pre ++ { name := nm, covered := false, evidence := [] } :: post)) ∧
    ∀ ctrl ∈ (analyze_requirement n d controls (cl :: cls) resp).controls,
      ctrl.evidence = [] → ctrl.covered = false := by
  constructor
  · have h : effective_controls
        (with_controls resp
          (pre ++ { name := nm, covered := true, evidence := [] } :: post)) controls =
        effective_controls
        (with_controls resp
          (pre ++ { name := nm, covered := false, evidence := [] } :: post)) controls := by
      simp only [effective_controls, with_controls, Option.getD_some,
        List.map_append, List.map_cons]
      simp [repair_control]
    show Verdict.mk _ _ _ _ _ _ _ = Verdict.mk _ _ _ _ _ _ _
    rw [h]
    rfl
  · intro ctrl hmem hev
    have hctrls : (analyze_requirement n d controls (cl :: cls) resp).controls =
        effective_controls resp controls := rfl
    rw [hctrls] at hmem
    obtain ⟨c0, _, rfl⟩ := List.mem_map.1 hmem
    exact repair_control_no_evidence c0 hev

/-- C5 witness: flipping a concrete covered-without-evidence control leaves
the verdict unchanged. -/
theorem analyze_requirement_covered_without_evidence_witness :
    analyze_requirement "r" "d" ["a"]
        [{ chunk_id := 0, label := "L", score := (0.3 : Rat), text := "t" }]
        (with_controls
          { requirement := "r", status := "s", confidence := 1, controls := none,
            rationale := "x", gaps := [], recommendations := [] }
          ([] ++ { name := "a", covered := true, evidence := [] } :: [])) =
      analyze_requirement "r" "d" ["a"]
        [{ chunk_id := 0, label := "L", score := (0.3 : Rat), text := "t" }]
        (with_controls
          { requirement := "r", status := "s", confidence := 1, controls := none,
            rationale := "x", gaps := [], recommendations := [] }
          ([] ++ { name := "a", covered := false, evidence := [] } :: [])) :=
  (analyze_requirement_covered_without_evidence "r" "d" ["a"]
    { chunk_id := 0, label := "L", score := (0.3 : Rat), text := "t" } []
    { requirement := "r", status := "s", confidence := 1, controls := none,
      rationale := "x", gaps := [], recommendations := [] } "a" [] []).1

/-- C6: in the evidence branch, once the repaired controls list is non-empty,
the final status depends only on how many of its controls are covered:
all of them — "Fully Compliant", none — "Non-Compliant", otherwise
"Partially Compliant", whatever status the model claimed. -/
theorem analyze_requirement_status_recompute (n d : String)
    (controls : List String) (cl : RetrievedClause) (cls : List RetrievedClause)
    (resp : ParsedResponse) (h : effective_controls resp controls ≠ []) :
    (analyze_requirement n d controls (cl :: cls) resp).status =
      (if covered_controls_count (effective_controls resp controls) =
          (effective_controls resp controls).length then "Fully Compliant"
       else if covered_controls_count (effective_controls resp controls) = 0 then
        "Non-Compliant"
       else "Partially Compliant") := by
  have hlen : (effective_controls resp controls).length ≠ 0 := by
    simpa [List.length_eq_zero] using h
  show compute_status (effective_controls resp controls) controls = _
  unfold compute_status
  rw [if_pos hlen]
  by_cases hfull : covered_controls_count (effective_controls resp controls) =
      (effective_controls resp controls).length
  · rw [if_pos ⟨by omega, hfull⟩, if_pos hfull]
  · rw [if_neg (by rintro ⟨_, hc⟩; exact hfull hc), if_neg hfull]

/-- C6 witness: one of two controls covered yields "Partially Compliant". -/
theorem analyze_requirement_status_recompute_witness :
    (analyze_requirement "r" "d" ["a", "b"]
        [{ chunk_id := 0, label := "L", score := (0.3 : Rat), text := "t" }]
        { requirement := "r", status := "nonsense", confidence := 1,
          controls := some
            [{ name := "a", covered := true,
               evidence := [{ chunk_id := 0, label := "L", quote := "q" }] },
             { name := "b", covered := false, evidence := [] }],
          rationale := "x", gaps := [], recommendations := [] }).status =
      "Partially Compliant" :=
  (analyze_requirement_status_recompute "r" "d" ["a", "b"]
      { chunk_id := 0, label := "L", score := (0.3 : Rat), text := "t" } []
      { requirement := "r", status := "nonsense", confidence := 1,
        controls := some
          [{ name := "a", covered := true,
             evidence := [{ chunk_id := 0, label := "L", quote := "q" }] },
           { name := "b", covered := false, evidence := [] }],
        rationale := "x", gaps := [], recommendations := [] }
      (by decide)).trans (by decide)

/-! ### C1: the coverage denominator of the confidence formula

The claim (and the spec sentence it quotes) says the denominator of
`coverage_ratio` is the number of controls in the repaired model-returned
list, falling back to the input list's length only when that returned list
is empty.  The source instead sets `total_controls = len(controls) or 1`:
the denominator is always the INPUT control list's length (with 1 as the
fallback for an empty input list).  `compute_base_claimC1` renders the
claim's own wording so the two can be compared. -/

/-- The confidence base as C1 states it (denominator = length of the repaired
returned controls list, falling back to the input list's length). -/
def compute_base_claimC1 (ctrls : List ControlClaim) (controls : List String)
    (retrieved : List RetrievedClause) : Int :=
  let total_controls : Nat := if ctrls.length ≠ 0 then ctrls.length else controls.length
  let coverage_ratio : Rat := (covered_controls_count ctrls : Rat) / (total_controls : Rat)
  let base : Int := 20 + Int.floor ((60 : Rat) * coverage_ratio)
  let base := if 0 < evidence_quotes ctrls then base + 5 else min base 20
  let base :=
    if (0.40 : Rat) ≤ avg_score retrieved then base + 5
    else if avg_score retrieved < (0.25 : Rat) then base - 5
    else base
  if compute_status ctrls controls = "Fully Compliant" then base + 5
  else if compute_status ctrls controls = "Non-Compliant" then base - 5
  else base

/-- The final confidence C1's formula induces (downstream steps as in the
source and the spec). -/
def compute_confidence_claimC1 (ctrls : List ControlClaim) (controls : List String)
    (retrieved : List RetrievedClause) : Int :=
  if evidence_quotes ctrls = 0 then min 20 95
  else max 30 (min (compute_base_claimC1 ctrls controls retrieved) 95)

/-- A parsed response for exercising C1: one control claimed covered, with a
single evidence quote, against an input list of two controls. -/
def respC1 : ParsedResponse :=
  ⟨"r", "s", 1, some [⟨"a", true, [⟨0, "L", "q"⟩]⟩], "x", [], []⟩

/-- A retrieved clause with score 0.3 (no average-score adjustment fires). -/
def clauseC1 : RetrievedClause := ⟨0, "L", (0.3 : Rat), "t"⟩

/-- C1 counterexample: two input controls, model returns a single covered
control with one quote.  The claim's denominator is 1 (confidence 90), the
code divides by the input count 2 (confidence 60). -/
theorem c1_coverage_ratio_counterexample :
    compute_confidence_claimC1 (effective_controls respC1 ["a", "b"]) ["a", "b"]
        [clauseC1] ≠
      (analyze_requirement "r" "d" ["a", "b"] [clauseC1] respC1).confidence := by
  have hclaim : compute_confidence_claimC1 (effective_controls respC1 ["a", "b"])
      ["a", "b"] [clauseC1] = 90 := by
    norm_num [compute_confidence_claimC1, compute_base_claimC1, effective_controls,
      default_controls, repair_control, covered_controls_count, evidence_quotes,
      avg_score, compute_status, respC1, clauseC1]
  have hcode : (analyze_requirement "r" "d" ["a", "b"] [clauseC1] respC1).confidence = 60 := by
    norm_num [analyze_requirement, compute_confidence, compute_base, effective_controls,
      default_controls, repair_control, covered_controls_count, evidence_quotes,
      avg_score, compute_status, respC1, clauseC1]
  rw [hclaim, hcode]
  decide

/-- The confidence formula as amended: the denominator is the length of the
input control list, falling back to 1 when that list is empty; on top of it
`base = 20 + floor(60 * coverage_ratio)` and the published adjustments. -/
def compute_base_amendedC1 (ctrls : List ControlClaim) (controls : List String)
    (retrieved : List RetrievedClause) : Int :=
  let total_controls : Nat := if controls.length ≠ 0 then controls.length else 1
  let coverage_ratio : Rat := (covered_controls_count ctrls : Rat) / (total_controls : Rat)
  let base : Int := 20 + Int.floor ((60 : Rat) * coverage_ratio)
  let base := if 0 < evidence_quotes ctrls then base + 5 else min base 20
  let base :=
    if (0.40 : Rat) ≤ avg_score retrieved then base + 5
    else if avg_score retrieved < (0.25 : Rat) then base - 5
    else base
  if compute_status ctrls controls = "Fully Compliant" then base + 5
  else if compute_status ctrls controls = "Non-Compliant" then base - 5
  else base

/-- Floor of a rational `60 * (c / t)` against the code's natural division. -/
theorem floor_sixty_div (c t : Nat) :
    Int.floor ((60 : Rat) * ((c : Rat) / (t : Rat))) = ((60 * c) / t : Nat) := by
  have h : (60 : Rat) * ((c : Rat) / (t : Rat)) =
      (((60 * c : Nat) : Int) : Rat) / ((t : Nat) : Rat) := by
    push_cast; ring
  rw [h, Rat.floor_intCast_div_natCast]
  norm_cast

theorem compute_base_amendedC1_eq (ctrls : List ControlClaim)
    (controls : List String) (retrieved : List RetrievedClause) :
    compute_base_amendedC1 ctrls controls retrieved =
      compute_base ctrls controls retrieved := by
  simp only [compute_base_amendedC1, compute_base, floor_sixty_div]

/-- The final confidence the amended C1 formula induces. -/
def compute_confidence_amendedC1 (ctrls : List ControlClaim)
    (controls : List String) (retrieved : List RetrievedClause) : Int :=
  if evidence_quotes ctrls = 0 then min 20 95
  else max 30 (min (compute_base_amendedC1 ctrls controls retrieved) 95)

/-- C1 (amended): in the evidence branch, the verdict's confidence is exactly
the amended formula's value — coverage counted over the repaired controls but
divided by the INPUT control count (1 when the input list is empty),
`base = 20 + floor(60 * coverage_ratio)`, then the published adjustments and
clamping. -/
theorem c1_coverage_ratio_amended (n d : String) (controls : List String)
    (cl : RetrievedClause) (cls : List RetrievedClause) (resp : ParsedResponse) :
    (analyze_requirement n d controls (cl :: cls) resp).confidence =
      compute_confidence_amendedC1 (effective_controls resp controls) controls
        (cl :: cls) := by
  show compute_confidence (effective_controls resp controls) controls (cl :: cls) = _
  unfold compute_confidence compute_confidence_amendedC1
  rw [compute_base_amendedC1_eq]

/-! ## Retriever (src/rag/retriever.py)

`retrieve_clauses` builds one query string, embeds it, runs the vector-store
search and post-filters the results.  The embedding provider and the FAISS
index are external collaborators (the spec's §4.3/§6), abstracted here by a
`search` function returning `(doc_id, score, text, meta)` tuples; the
dictionary post-processing and the relevance filter are embedded verbatim. -/

/-- One `(doc_id, score, text, meta)` tuple from `store.search`, with the
`chunk_id`/`label` entries of its metadata dictionary (`none` = key absent). -/
structure Hit where
  doc_id : Int
  score : Rat
  text : String
  meta_chunk_id : Option Int
  meta_label : Option String
deriving Repr, DecidableEq

/-- The synthetic query string of `retrieve_clauses`. -/
def build_query (requirement_name requirement_description : String)
    (controls : List String) : String :=
  "Requirement: " ++ requirement_name ++ "\n" ++
    "Description: " ++ requirement_description ++ "\n" ++
    "Controls: " ++ String.intercalate ", " controls

/-- `meta.get("chunk_id", doc_id)` / `meta.get("label", f"Chunk {doc_id}")`. -/
def hit_to_result (h : Hit) : RetrievedClause :=
  { chunk_id := h.meta_chunk_id.getD h.doc_id,
    label := h.meta_label.getD ("Chunk " ++ toString h.doc_id),
    score := h.score,
    text := h.text }

/-- `retrieve_clauses`, with the composed embed-then-search step abstracted
by `search`. -/
def retrieve_clauses (search : String → Nat → List Hit)
    (requirement_name requirement_description : String) (controls : List String)
    (top_k : Nat := 12) (min_score : Rat := 0.25) : List RetrievedClause :=
  let query := build_query requirement_name requirement_description controls
  let hits := search query top_k
  let results := hits.map hit_to_result
  results.filter (fun r => min_score ≤ r.score)

/-- C8: provided the store's search honours its contract (at most `top_k`
results, in descending-score order), `retrieve_clauses` returns only entries
scoring at least `min_score`, as a subsequence of the mapped search results
(order preserved, hence still descending), with at most `top_k` entries; and
when every hit scores below `min_score` it returns the empty list. -/
theorem retrieve_clauses_filter_spec (search : String → Nat → List Hit)
    (n d : String) (controls : List String) (top_k : Nat) (min_score : Rat)
    (hlen : (search (build_query n d controls) top_k).length ≤ top_k)
    (hsort : (search (build_query n d controls) top_k).Pairwise
      (fun a b => b.score ≤ a.score)) :
    (∀ r ∈ retrieve_clauses search n d controls top_k min_score,
      min_score ≤ r.score) ∧
    List.Sublist (retrieve_clauses search n d controls top_k min_score)
      ((search (build_query n d controls) top_k).map hit_to_result) ∧
    (retrieve_clauses search n d controls top_k min_score).Pairwise
      (fun a b => b.score ≤ a.score) ∧
    (retrieve_clauses search n d controls top_k min_score).length ≤ top_k ∧
    ((∀ h ∈ search (build_query n d controls) top_k, h.score < min_score) →
      retrieve_clauses search n d controls top_k min_score = []) := by
  refine ⟨?_, ?_, ?_, ?_, ?_⟩
  · intro r hr
    have := List.of_mem_filter hr
    simpa using this
  · exact List.filter_sublist _
  · have hmapped : ((search (build_query n d controls) top_k).map hit_to_result).Pairwise
        (fun a b => b.score ≤ a.score) := by
      rw [List.pairwise_map]
      exact hsort
    exact hmapped.sublist (List.filter_sublist _)
  · calc (retrieve_clauses search n d controls top_k min_score).length
        ≤ ((search (build_query n d controls) top_k).map hit_to_result).length :=
          List.length_filter_le _ _
      _ = (search (build_query n d controls) top_k).length := List.length_map _ _
      _ ≤ top_k := hlen
  · intro hall
    rw [show retrieve_clauses search n d controls top_k min_score =
        ((search (build_query n d controls) top_k).map hit_to_result).filter
          (fun r => min_score ≤ r.score) from rfl]
    rw [List.filter_eq_nil_iff]
    intro r hr
    obtain ⟨h, hh, rfl⟩ := List.mem_map.1 hr
    simpa using not_le.2 (hall h hh)

/-- C8 witness: a store whose two hits score 0.4 and 0.3 against a 0.5
threshold yields the empty result. -/
theorem retrieve_clauses_filter_spec_witness :
    retrieve_clauses (fun _ _ => [⟨0, (0.4 : Rat), "t", none, none⟩,
      ⟨1, (0.3 : Rat), "u", none, none⟩]) "n" "d" [] 2 (0.5 : Rat) = [] :=
  (retrieve_clauses_filter_spec
      (fun _ _ => [⟨0, (0.4 : Rat), "t", none, none⟩,
        ⟨1, (0.3 : Rat), "u", none, none⟩]) "n" "d" [] 2 (0.5 : Rat)
      (by simp)
      (by simp only [List.pairwise_cons, List.mem_singleton]
          refine ⟨?_, by simp⟩
          rintro a rfl
          norm_num)).2.2.2.2
    (by intro h hmem
        simp only [List.mem_cons, List.mem_singleton] at hmem
        rcases hmem with rfl | rfl | hmem
        · norm_num
        · norm_num
        · simp at hmem)

/-! ## Section tagger (src/chunking/section_tagger.py)

The three module-level regular expressions are compiled by hand into
executable matchers over `List Char`, reproducing Python `re` semantics:
`search` scans candidate start positions left to right and returns the first
position where the pattern matches; quantifiers are greedy, with the
backtracking a trailing `\b` or `\s+` can force resolved explicitly (see the
comments at each matcher). -/

/-- Python's `\s` (ASCII range, after `\r` normalization the source never
feeds anything beyond these). -/
def isPySpace (c : Char) : Bool :=
  c = ' ' || c = '\t' || c = '\n' || c = '\r' || c = '\x0b' || c = '\x0c'

/-- Python's `\w` over ASCII: letters, digits, underscore. -/
def isWordChar (c : Char) : Bool :=
  c.isAlpha || c.isDigit || c = '_'

/-- `\b` at the junction between a just-matched word character and `rest`. -/
def wordBoundary (rest : List Char) : Bool :=
  match rest with
  | [] => true
  | c :: _ => !isWordChar c

/-- Case-insensitive literal match: strips `pat` (given lowercase) from the
head of `cs`. -/
def stripPrefixCI (pat : List Char) (cs : List Char) : Option (List Char) :=
  match pat, cs with
  | [], rest => some rest
  | _ :: _, [] => none
  | p :: ps, c :: rest => if c.toLower = p then stripPrefixCI ps rest else none

/-- Greedy `(?:\.\d+)*`: the maximal chain of `.digits` groups at the head of
the input, as a list of groups (each `'.' :: digits`) plus the rest.  The
fuel is the input length, enough since every group consumes ≥ 2 chars. -/
def dotChainAux : Nat → List Char → List (List Char) × List Char
  | 0, cs => ([], cs)
  | fuel + 1, '.' :: rest =>
    let (ds, r2) := rest.span Char.isDigit
    if ds.isEmpty then ([], '.' :: rest)
    else
      let (gs, r3) := dotChainAux fuel r2
      (('.' :: ds) :: gs, r3)
  | _ + 1, cs => ([], cs)

/-- Greedy `(?:\.\d+)*\b` (the group chain ends in a digit, so the boundary
inspects the character following the chain).  When the maximal chain is
followed by a word character the engine backtracks exactly one group — the
character after the shorter chain is then `'.'`, a non-word character — and
fails only if there is no group to give back (a shorter digit run inside
`\d+` is always followed by a digit, so that backtrack can never succeed). -/
def dotChainBoundary (cs : List Char) : Option (List Char) :=
  let (gs, r) := dotChainAux cs.length cs
  if wordBoundary r then some gs.flatten
  else if gs.isEmpty then none
  else some gs.dropLast.flatten

/-- `SECTION_RE = \bSection\s+(\d+(?:\.\d+)*)\b` (ignorecase), attempted at
one start position (the caller has checked the leading `\b`); returns the
captured group. -/
def matchSectionAt (cs : List Char) : Option (List Char) :=
  match stripPrefixCI ("section".toList) cs with
  | none => none
  | some r1 =>
    let (sp, r2) := r1.span isPySpace
    if sp.isEmpty then none
    else
      let (ds, r3) := r2.span Char.isDigit
      if ds.isEmpty then none
      else
        match dotChainBoundary r3 with
        | some chain => some (ds ++ chain)
        | none => none

/-- `SECTION_RE.search`: first match over all start positions; `prevWord`
tracks whether the previous character is a word character (`\b`). -/
def searchSectionAux (prevWord : Bool) : List Char → Option (List Char)
  | [] => none
  | c :: rest =>
    if prevWord then searchSectionAux (isWordChar c) rest
    else
      match matchSectionAt (c :: rest) with
      | some g => some g
      | none => searchSectionAux (isWordChar c) rest

def searchSection (cs : List Char) : Option (List Char) :=
  searchSectionAux false cs

/-- `EXHIBIT_RE = \bExhibit\s+([A-Z]\d*|[A-Z])\b` (ignorecase) at one start
position.  Both alternatives start with one letter; the first then takes the
maximal digit run.  If the boundary after that run fails, every backtrack
(shorter digit run, or the bare-letter alternative) leaves a word character
adjacent, so the position fails outright. -/
def matchExhibitAt (cs : List Char) : Option (List Char) :=
  match stripPrefixCI ("exhibit".toList) cs with
  | none => none
  | some r1 =>
    let (sp, r2) := r1.span isPySpace
    if sp.isEmpty then none
    else
      match r2 with
      | [] => none
      | l :: r3 =>
        if l.isAlpha then
          let (ds, r4) := r3.span Char.isDigit
          if wordBoundary r4 then some (l :: ds) else none
        else none

def searchExhibitAux (prevWord : Bool) : List Char → Option (List Char)
  | [] => none
  | c :: rest =>
    if prevWord then searchExhibitAux (isWordChar c) rest
    else
      match matchExhibitAt (c :: rest) with
      | some g => some g
      | none => searchExhibitAux (isWordChar c) rest

def searchExhibit (cs : List Char) : Option (List Char) :=
  searchExhibitAux false cs

/-- `PLAIN_NUM_RE = ^\s*(\d+(?:\.\d+)+)\s+` (multiline) at one line-start
position.  `\s*` must be maximal (a shorter run leaves a space where `\d+`
needs a digit); the dotted chain needs at least one group; the trailing
`\s+` needs at least one whitespace right after the chain (giving back a
group leaves `'.'` there, shrinking the last digit run leaves a digit, so
no backtrack can rescue a failure). -/
def matchPlainAt (cs : List Char) : Option (List Char) :=
  let r1 := cs.dropWhile isPySpace
  let (ds, r2) := r1.span Char.isDigit
  if ds.isEmpty then none
  else
    let (gs, r3) := dotChainAux r2.length r2
    if gs.isEmpty then none
    else
      match r3 with
      | c :: _ => if isPySpace c then some (ds ++ gs.flatten) else none
      | [] => none

/-- `PLAIN_NUM_RE.search`: the `^` anchor restricts start positions to the
string start and every position following a newline. -/
def searchPlainAux (atLineStart : Bool) : List Char → Option (List Char)
  | [] => none
  | c :: rest =>
    if atLineStart then
      match matchPlainAt (c :: rest) with
      | some g => some g
      | none => searchPlainAux (c = '\n') rest
    else searchPlainAux (c = '\n') rest

def searchPlain (cs : List Char) : Option (List Char) :=
  searchPlainAux true cs

/-- `find_section_label`: the three pattern families in fixed priority
order, each scanning the whole text. -/
def find_section_label (text : String) : Option String :=
  match searchSection text.toList with
  | some g => some ("Section " ++ String.mk g)
  | none =>
    match searchExhibit text.toList with
    | some g => some ("Exhibit " ++ String.mk (g.map Char.toUpper))
    | none =>
      match searchPlain text.toList with
      | some g => some ("Section " ++ String.mk g)
      | none => none

/-- C7: the `Section` family takes priority — any text in which `SECTION_RE`
finds a match is labelled with that normalized match, whatever else the text
contains — and both spec examples evaluate as stated: a text with both a
`Section` reference and an `Exhibit` reference is labelled from the former,
and a text matching none of the three families yields no label. -/
theorem find_section_label_priority :
    (∀ (t : String) (g : List Char), searchSection t.toList = some g →
      find_section_label t = some ("Section " ++ String.mk g)) ∧
    find_section_label "See Section 4.2 and Exhibit A for details" =
      some "Section 4.2" ∧
    find_section_label "no headings here" = none := by
  refine ⟨?_, by decide, by decide⟩
  intro t g h
  unfold find_section_label
  rw [h]

/-- C7 witness: a concrete text on which the `Section` pattern fires. -/
theorem find_section_label_priority_witness :
    find_section_label "clause 7 - see Section 12.3.1 and Exhibit B9" =
      some ("Section " ++ String.mk ['1', '2', '.', '3', '.', '1']) :=
  find_section_label_priority.1 "clause 7 - see Section 12.3.1 and Exhibit B9"
    ['1', '2', '.', '3', '.', '1'] (by decide)

/-! ## Chunker (src/chunking/chunker.py)

`split_into_section_blocks` scans for heading lines with `HEADING_RE`
(multiline, ignorecase), `_para_split` splits on blank-line separators
(`re.split(r"\n\s*\n+", ...)`), and `chunk_text` greedily packs paragraphs
into chunks.  The two regexes are hand-compiled like the tagger's. -/

/-- Python `str.strip()` (over the ASCII whitespace the pipeline feeds it). -/
def pyStrip (cs : List Char) : List Char :=
  ((cs.dropWhile isPySpace).reverse.dropWhile isPySpace).reverse

/-- Index of the last `'\n'` in a list, if any. -/
def lastNewlineIdxAux : List Char → Nat → Option Nat → Option Nat
  | [], _, acc => acc
  | c :: rest, i, acc =>
    lastNewlineIdxAux rest (i + 1) (if c = '\n' then some i else acc)

def lastNewlineIdx (w : List Char) : Option Nat :=
  lastNewlineIdxAux w 0 none

/-- Length of the match of `\n\s*\n+` at the head of `cs`, if it matches.
The greedy resolution: after the first `'\n'`, `\s*` extends to just before
the last newline of the following whitespace run and `\n+` takes that final
newline, so the match covers the first newline, then the run up to and
including its last newline. -/
def blankSepLen (cs : List Char) : Option Nat :=
  match cs with
  | '\n' :: rest =>
    let w := rest.takeWhile isPySpace
    match lastNewlineIdx w with
    | some j => some (j + 2)
    | none => none
  | _ => none

/-- `re.split(r"\n\s*\n+", text)`: scan left to right, cutting at each
(non-overlapping, leftmost) separator match.  Fuel: one unit per consumed
character suffices since a separator is ≥ 2 characters long. -/
def reSplitAux : Nat → List Char → List Char → List (List Char)
  | 0, cs, acc => [acc.reverse ++ cs]
  | _ + 1, [], acc => [acc.reverse]
  | fuel + 1, c :: rest, acc =>
    match blankSepLen (c :: rest) with
    | some l => acc.reverse :: reSplitAux fuel ((c :: rest).drop l) []
    | none => reSplitAux fuel rest (c :: acc)

def re_split_blank (cs : List Char) : List (List Char) :=
  reSplitAux (cs.length + 1) cs []

/-- `_para_split`. -/
def para_split (text : List Char) : List (List Char) :=
  let t := text.map (fun c => if c = '\r' then '\n' else c)
  ((re_split_blank t).map pyStrip).filter (fun p => !p.isEmpty)

/-- Common tail `\s+\d+(?:\.\d+)*` of the `section`/`sec.`/`ยง` heading
alternatives; `pre` is the already-matched prefix (original spelling). -/
def headingNumTail (pre : List Char) (rest : List Char) :
    Option (List Char × List Char) :=
  let (sp, r1) := rest.span isPySpace
  if sp.isEmpty then none
  else
    let (ds, r2) := r1.span Char.isDigit
    if ds.isEmpty then none
    else
      let (gs, r3) := dotChainAux r2.length r2
      some (pre ++ sp ++ ds ++ gs.flatten, r3)

/-- `(?:section|sec\.?)\s+\d+(?:\.\d+)*`: the `section` spelling is tried
first; on failure the engine falls back to `sec` with an optional dot (an
optional dot that is present is always consumed — declining it leaves `.`
where `\s+` needs whitespace). -/
def headingAlt1 (cs : List Char) : Option (List Char × List Char) :=
  (match stripPrefixCI ("section".toList) cs with
   | some r => headingNumTail (cs.take 7) r
   | none => none) <|>
  (match stripPrefixCI ("sec".toList) cs with
   | some r =>
     match r with
     | '.' :: r2 => headingNumTail (cs.take 4) r2
     | _ => headingNumTail (cs.take 3) r
   | none => none)

/-- `ยง\s*\d+(?:\.\d+)*` — the source file literally contains the two
characters U+0E22 U+0E07 (a mis-encoded section sign). -/
def headingAlt2 (cs : List Char) : Option (List Char × List Char) :=
  match cs with
  | c1 :: c2 :: rest =>
    if c1 = 'ย' && c2 = 'ง' then
      let (sp, r1) := rest.span isPySpace
      let (ds, r2) := r1.span Char.isDigit
      if ds.isEmpty then none
      else
        let (gs, r3) := dotChainAux r2.length r2
        some (c1 :: c2 :: (sp ++ ds ++ gs.flatten), r3)
    else none
  | _ => none

/-- `\d+(?:\.\d+)+\s*[:\-]` (at least one dotted group; giving back a group
or a digit can never turn the required `:`/`-` up, so no backtracking). -/
def headingAlt3 (cs : List Char) : Option (List Char × List Char) :=
  let (ds, r1) := cs.span Char.isDigit
  if ds.isEmpty then none
  else
    let (gs, r2) := dotChainAux r1.length r1
    if gs.isEmpty then none
    else
      let (sp, r3) := r2.span isPySpace
      match r3 with
      | c :: r4 =>
        if c = ':' || c = '-' then some (ds ++ gs.flatten ++ sp ++ [c], r4)
        else none
      | [] => none

/-- `exhibit\s+[A-Z]\d*\b` (ignorecase). -/
def headingAlt4 (cs : List Char) : Option (List Char × List Char) :=
  match stripPrefixCI ("exhibit".toList) cs with
  | none => none
  | some r1 =>
    let (sp, r2) := r1.span isPySpace
    if sp.isEmpty then none
    else
      match r2 with
      | [] => none
      | l :: r3 =>
        if l.isAlpha then
          let (ds, r4) := r3.span Char.isDigit
          if wordBoundary r4 then some (cs.take 7 ++ sp ++ l :: ds, r4) else none
        else none

/-- `schedule\s+[A-Z0-9]+\b` and `appendix\s+[A-Z0-9]+\b` (ignorecase);
`litLen` is the literal's length.  After the maximal alphanumeric run the
boundary can only fail on `'_'`, and every shorter run ends before an
alphanumeric, so failure is final. -/
def headingAltWord (lit : List Char) (litLen : Nat) (cs : List Char) :
    Option (List Char × List Char) :=
  match stripPrefixCI lit cs with
  | none => none
  | some r1 =>
    let (sp, r2) := r1.span isPySpace
    if sp.isEmpty then none
    else
      let (run, r3) := r2.span (fun c => c.isAlpha || c.isDigit)
      if run.isEmpty then none
      else if wordBoundary r3 then some (cs.take litLen ++ sp ++ run, r3)
      else none

/-- The `h` group of `HEADING_RE`: the six alternatives in written order. -/
def headingAlt (cs : List Char) : Option (List Char × List Char) :=
  headingAlt1 cs <|> headingAlt2 cs <|> headingAlt3 cs <|> headingAlt4 cs <|>
    headingAltWord ("schedule".toList) 8 cs <|>
    headingAltWord ("appendix".toList) 8 cs

/-- A full `HEADING_RE` match at a line-start position: the `h` group then
`\s*.*$` (which always succeeds, running to the end of the line the trailing
whitespace ends on).  Returns the group and the match length. -/
def headingMatchAt (cs : List Char) : Option (List Char × Nat) :=
  match headingAlt cs with
  | none => none
  | some (h, r1) =>
    let r2 := r1.dropWhile isPySpace
    let r3 := r2.dropWhile (fun c => c ≠ '\n')
    some (h, cs.length - r3.length)

/-- `HEADING_RE.finditer`: all non-overlapping matches with their start
offsets; `^` (multiline) restricts starts to position 0 and positions right
after a newline.  A match always consumes at least one character, so one
fuel unit per character suffices. -/
def findHeadingsAux : Nat → List Char → Nat → Bool → List (Nat × List Char)
  | 0, _, _, _ => []
  | _ + 1, [], _, _ => []
  | fuel + 1, c :: rest, i, atStart =>
    if atStart then
      match headingMatchAt (c :: rest) with
      | some (h, len) =>
        (i, h) :: findHeadingsAux fuel (rest.drop (len - 1)) (i + len) false
      | none => findHeadingsAux fuel rest (i + 1) (c = '\n')
    else findHeadingsAux fuel rest (i + 1) (c = '\n')

def findHeadings (cs : List Char) : List (Nat × List Char) :=
  findHeadingsAux (cs.length + 1) cs 0 true

/-- One heading-delimited block. -/
structure Block where
  heading : Option (List Char)
  text : List Char
  start : Nat
  stop : Nat
deriving Repr, DecidableEq

def mkBlocks (t : List Char) : List (Nat × List Char) → List Block
  | [] => []
  | (s, h) :: rest =>
    let e := match rest with
      | (s2, _) :: _ => s2
      | [] => t.length
    { heading := some (pyStrip h), text := pyStrip ((t.drop s).take (e - s)),
      start := s, stop := e } :: mkBlocks t rest

/-- `split_into_section_blocks`.  Note that text before the first heading
match belongs to no block, exactly as in the source. -/
def split_into_section_blocks (text : List Char) : List Block :=
  let t := pyStrip (text.map (fun c => if c = '\r' then '\n' else c))
  if t.isEmpty then []
  else
    match findHeadings t with
    | [] => [{ heading := none, text := t, start := 0, stop := t.length }]
    | ms => mkBlocks t ms

/-- An emitted chunk. -/
structure Chunk where
  id : Nat
  text : List Char
  section_heading : Option (List Char)
  start_char : Int
  end_char : Int
deriving Repr, DecidableEq

/-- The mutable state of `chunk_text`'s paragraph loop (`chunks`, `chunk_id`,
`buf`, `buf_len`, `buf_start_char`, `running`). -/
structure ChunkState where
  chunks : List Chunk
  chunk_id : Nat
  buf : List (List Char)
  buf_len : Nat
  buf_start_char : Int
  running : Int
deriving Repr, DecidableEq

/-- The inner `flush`: emits the joined buffer when it reaches `min_chars`
(shorter buffers are discarded) and ALWAYS resets `buf`/`buf_len` — the
reset happens inside `flush`, before the caller reads `buf` again. -/
def flushBuf (heading : Option (List Char)) (min_chars : Nat)
    (s : ChunkState) (buf_end_char : Int) : ChunkState :=
  if s.buf.isEmpty then s
  else
    let out := pyStrip (List.intercalate ['\n', '\n'] s.buf)
    let ch : Chunk :=
      { id := s.chunk_id, text := out, section_heading := heading,
        start_char := max s.buf_start_char 0, end_char := max buf_end_char 0 }
    let s1 :=
      if min_chars ≤ out.length then
        { s with
            chunks := s.chunks ++ [ch],
            chunk_id := s.chunk_id + 1 }
      else s
    { s1 with buf := [], buf_len := 0 }

/-- Python `buf[-n:]` for `n > 0`. -/
def takeLastParas (n : Nat) (l : List (List Char)) : List (List Char) :=
  l.drop (l.length - n)

/-- The body of `for p in paras`. In the overflow branch the source calls
`flush(running)` first and only then evaluates `buf[-overlap_paragraphs:]`
on the buffer `flush` just reset. -/
def chunkStep (heading : Option (List Char))
    (max_chars min_chars overlap_paragraphs : Nat) (block_start : Int)
    (s : ChunkState) (p : List Char) : ChunkState :=
  let p_len := p.length + 2
  if s.buf.isEmpty then
    { s with
        buf := [p], buf_len := p_len, buf_start_char := s.running,
        running := s.running + p_len }
  else if s.buf_len + p_len ≤ max_chars then
    { s with
        buf := s.buf ++ [p], buf_len := s.buf_len + p_len,
        running := s.running + p_len }
  else
    let s1 := flushBuf heading min_chars s s.running
    let overlap :=
      if 0 < overlap_paragraphs then takeLastParas overlap_paragraphs s1.buf
      else []
    let buf1 := overlap ++ [p]
    let buf_len1 := (buf1.map (fun x => x.length + 2)).sum
    let buf_start1 : Int :=
      if !overlap.isEmpty then
        max (s.running - ((overlap.map (fun x => (x.length : Int) + 2)).sum))
          block_start
      else s.running
    { s1 with
        buf := buf1, buf_len := buf_len1, buf_start_char := buf_start1,
        running := s.running + p_len }

/-- One block of the outer loop: run the paragraph loop, then the final
unconditional flush. -/
def processBlock (max_chars min_chars overlap_paragraphs : Nat)
    (acc : List Chunk × Nat) (b : Block) : List Chunk × Nat :=
  let paras := para_split b.text
  let s0 : ChunkState :=
    { chunks := acc.1, chunk_id := acc.2, buf := [], buf_len := 0,
      buf_start_char := (b.start : Int), running := (b.start : Int) }
  let s := paras.foldl
    (chunkStep b.heading max_chars min_chars overlap_paragraphs (b.start : Int)) s0
  let s := flushBuf b.heading min_chars s s.running
  (s.chunks, s.chunk_id)

/-- `chunk_text` (the `overlap_chars` parameter is accepted and ignored,
like in the source). -/
def chunk_text (text : List Char) (max_chars : Nat := 3000)
    (overlap_chars : Nat := 300) (min_chars : Nat := 400)
    (overlap_paragraphs : Nat := 1) : List Chunk :=
  let raw := text.map (fun c => if c = '\r' then '\n' else c)
  let blocks := split_into_section_blocks raw
  (blocks.foldl (processBlock max_chars min_chars overlap_paragraphs) ([], 0)).1

/-! ### Claims about the chunker -/

/-- C2 (failing input): two 10-character paragraphs under `max_chars = 20`,
`min_chars = 5`, `overlap_paragraphs = 1`.  Adding the second paragraph
overflows `max_chars`, so the first buffer is flushed — and the second chunk
comes out as the second paragraph alone: it does NOT start with the last
paragraph of the flushed buffer, because `flush` resets the shared `buf`
before the caller evaluates `buf[-overlap_paragraphs:]`, which is therefore
always empty. -/
theorem chunk_text_overlap_never_seeded :
    (chunk_text (List.replicate 10 'a' ++ '\n' :: '\n' :: List.replicate 10 'b')
        20 300 5 1).map (fun c => c.text) =
      [List.replicate 10 'a', List.replicate 10 'b'] ∧
    List.isPrefixOf (List.replicate 10 'a') (List.replicate 10 'b') = false := by
  decide

/-- C9: `max_chars` does not bound emitted chunk sizes — a paragraph arriving
at an empty buffer is accepted and (meeting `min_chars`) flushed intact even
when it alone exceeds `max_chars`. -/
theorem chunk_text_max_chars_not_a_bound :
    ∃ (text : List Char) (max_chars min_chars : Nat),
      min_chars ≤ max_chars ∧
      (chunk_text text max_chars 300 min_chars 1).map (fun c => c.text) = [text] ∧
      max_chars < text.length :=
  ⟨List.replicate 30 'a', 20, 5, by decide, by decide, by decide⟩

end ContractAnalyzer
